import Mathlib

/-!
A shallow embedding of the method-interception and telemetry-recording core of
the repository: the Anthropic instrumentation module
(`opentelemetry/instrumentation/anthropic/__init__.py`) and the LangChain
chat wrapper (`opentelemetry/instrumentation/langchain/custom_chat_wrapper.py`).

Pure helpers of the source become Lean functions; the stateful wrapper bodies
become functions from the call's inputs (policy flags, request, the wrapped
callable's outcome) to an explicit record of the telemetry effects performed
(the span started with its attributes and end count, the metric instruments
created, the metric data points recorded) together with the value returned or
the exception raised.  Machine integers do not overflow in any quantity the
code manipulates (token counts, clock readings), so they are modelled as `Int`.

Two pieces of repository code referenced by the module are not among the
sources (the `utils` module and the `streaming` module); those are modelled
from the spec, and each such definition is marked `Modelled from the spec:`.
-/

namespace OTel

/-- A Python exception, reduced to what the code observes: the class name
(`exception.__class__.__name__`) and the message. -/
structure Exn where
  className : String
  msg : String
  deriving DecidableEq, Repr

/-- Outcome of invoking a callable: it returns a value or raises. -/
inductive Outcome (α : Type) where
  | ok (v : α)
  | exn (e : Exn)
  deriving DecidableEq, Repr

/-- A scalar span-attribute value (string, integer, boolean, or float —
floats appear only as request parameters and are modelled as rationals). -/
inductive AttrVal where
  | str (s : String)
  | int (n : Int)
  | bool (b : Bool)
  | rat (q : ℚ)
  deriving DecidableEq, Repr

/-- Python truthiness of an attribute value: `""`, `0`, `False` and `0.0`
are falsy, everything else is truthy. -/
def AttrVal.truthy : AttrVal → Bool
  | .str s => !(s == "")
  | .int n => !(n == 0)
  | .bool b => b
  | .rat q => !(q == 0)

/-- The span-attribute keys the two wrappers write, as a structured type
(the source uses dotted strings; the index of `llm.prompts.<i>.user` and
`llm.completions.<i>.content` is the constructor argument). -/
inductive AttrKey where
  | vendor                        -- llm.vendor
  | requestType                   -- llm.request.type
  | requestModel                  -- llm.request.model
  | requestMaxTokens              -- llm.request.max_tokens
  | temperature                   -- llm.temperature
  | topP                          -- llm.top_p
  | frequencyPenalty              -- llm.frequency_penalty
  | presencePenalty               -- llm.presence_penalty
  | isStreaming                   -- llm.is_streaming
  | promptUser (i : Nat)          -- llm.prompts.<i>.user
  | completionFinishReason (i : Nat)  -- llm.completions.<i>.finish_reason
  | completionContent (i : Nat)   -- llm.completions.<i>.content
  | responseModel                 -- llm.response.model
  | usagePromptTokens             -- llm.usage.prompt_tokens
  | usageCompletionTokens         -- llm.usage.completion_tokens
  | usageTotalTokens              -- llm.usage.total_tokens
  deriving DecidableEq, Repr

/-- Is this one of the `llm.completions.*` keys? -/
def AttrKey.isCompletionKey : AttrKey → Bool
  | .completionFinishReason _ => true
  | .completionContent _ => true
  | _ => false

/-- Span status (OTel `StatusCode`). -/
inductive SpanStatus where
  | unset
  | ok
  | error
  deriving DecidableEq, Repr

/-- A telemetry span: name, attribute writes (newest first, so a lookup from
the head realizes the overwrite semantics of repeated `set_attribute`),
status, and how many times `end()` was called on it. -/
structure Span where
  name : String
  attrs : List (AttrKey × AttrVal)
  status : SpanStatus
  endCount : Nat
  deriving DecidableEq, Repr

/-- The current value of a span attribute: the most recent write wins. -/
def getAttr (sp : Span) (k : AttrKey) : Option AttrVal :=
  (sp.attrs.find? (fun kv => decide (kv.1 = k))).map (fun kv => kv.2)

/-- Modelled from the spec: `set_span_attribute` lives in the `utils` module,
which is not among the sources.  Per the spec (§4.1), "Absent or falsy values
are never written."; a present, truthy value is written to the span. -/
def set_span_attribute (sp : Span) (k : AttrKey) (v : Option AttrVal) : Span :=
  match v with
  | none => sp
  | some w => if w.truthy then { sp with attrs := (k, w) :: sp.attrs } else sp

/-- The raw OTel `span.set_attribute` (used directly by the LangChain
wrapper): writes unconditionally. -/
def spanSetAttr (sp : Span) (k : AttrKey) (v : AttrVal) : Span :=
  { sp with attrs := (k, v) :: sp.attrs }

/-- The metric attribute keys used on data points. -/
inductive MAttrKey where
  | responseModel    -- llm.response.model
  | errorType        -- error.type
  | tokenType        -- llm.usage.token_type
  | stopReason       -- llm.response.stop_reason
  deriving DecidableEq, Repr

/-- The four metric instruments of `_create_metrics`. -/
inductive Instrument where
  | tokens      -- llm.anthropic.completion.tokens (counter)
  | choices     -- llm.anthropic.completion.choices (counter)
  | duration    -- llm.anthropic.completion.duration (histogram)
  | exceptions  -- llm.anthropic.completion.exceptions (counter)
  deriving DecidableEq, Repr

/-- One recorded metric data point: the instrument it was recorded on, the
value, and its attributes (values may be `None`, hence `Option String`). -/
structure MetricPoint where
  instrument : Instrument
  value : Int
  attrs : List (MAttrKey × Option String)
  deriving DecidableEq, Repr

/-- The duration values among a list of recorded data points. -/
def durationValues (l : List MetricPoint) : List Int :=
  l.filterMap (fun p => if p.instrument = .duration then some p.value else none)

/-- The data points recorded on the exception counter. -/
def exceptionPoints (l : List MetricPoint) : List MetricPoint :=
  l.filter (fun p => decide (p.instrument = .exceptions))

/-- Python's `str.lower()`, character-wise (the code only compares the
lowered flag value against the ASCII literal `"true"`). -/
def strLower (s : String) : String :=
  String.mk (s.toList.map Char.toLower)

/-- `is_metrics_enabled` (source lines 487-488):
`(os.getenv("TRACELOOP_METRICS_ENABLED") or "true").lower() == "true"`,
as a function of the raw environment-variable value. -/
def is_metrics_enabled (envVar : Option String) : Bool :=
  strLower (envVar.getD "true") == "true"

/-- The call-independent inputs of one instrumented call: the client's
token-counting capability, the policy flags, the ambient suppression flag,
whether the span is recording, and the wall clock (the `n`-th reading
`time.time()` would return). -/
structure Env where
  countTokens : String → Int
  sendPrompts : Bool             -- Modelled from the spec: `should_send_prompts`
                                 -- (utils module, not in the sources) is an
                                 -- external boolean policy flag.
  metricsEnvVar : Option String  -- raw value of TRACELOOP_METRICS_ENABLED
  suppressed : Bool              -- context value of _SUPPRESS_INSTRUMENTATION_KEY
  isRecording : Bool             -- span.is_recording()
  timeline : Nat → Int           -- successive time.time() readings

/-- Message content: a flat string or an ordered list of typed parts. -/
inductive ContentPart where
  | text (t : String)
  | image (sourceType mediaType dataStr : String)
  | other
  deriving DecidableEq, Repr

/-- A `messages` entry's content: a string or a list of content parts. -/
inductive MsgContent where
  | str (s : String)
  | parts (l : List ContentPart)
  deriving DecidableEq, Repr

/-- One entry of the `messages` request key. -/
structure Message where
  role : String
  content : MsgContent
  deriving DecidableEq, Repr

/-- The keyword-argument mapping of the wrapped call (recognized keys only;
`none` models an absent key). -/
structure Request where
  model : Option String := none
  max_tokens_to_sample : Option Int := none
  temperature : Option ℚ := none
  top_p : Option ℚ := none
  frequency_penalty : Option ℚ := none
  presence_penalty : Option ℚ := none
  stream : Option Bool := none
  prompt : Option String := none
  messages : Option (List Message) := none

/-- The `usage` sub-structure of a response. -/
structure Usage where
  input_tokens : Int
  output_tokens : Int
  deriving DecidableEq, Repr

/-- One item of a response's `content` list (the code reads `.text`). -/
structure ContentBlock where
  text : String
  deriving DecidableEq, Repr

/-- A non-streaming response's recognized shape. -/
structure Response where
  model : Option String := none
  completion : Option String := none
  content : Option (List ContentBlock) := none
  stop_reason : Option String := none
  usage : Option Usage := none
  deriving DecidableEq, Repr

/-- One item of a streaming response; `delta` is the text delta the spec's
adapter accumulates (absent for non-text events). -/
structure StreamItem where
  delta : Option String
  deriving DecidableEq, Repr

/-- What the wrapped callable produces on success: a streaming response, a
normal response object, or a falsy value (`None`). -/
inductive CallResult where
  | stream (items : List StreamItem)
  | resp (r : Response)
  | noneRes
  deriving DecidableEq, Repr

/-- Python truthiness of an optional string (`request.get("prompt")` style
check: absent or empty is falsy). -/
def truthyStr : Option String → Bool
  | none => false
  | some s => !(s == "")

/-- Python truthiness of an optional list (absent or empty is falsy). -/
def truthyList {α : Type} : Option (List α) → Bool
  | none => false
  | some l => !l.isEmpty

/-- JSON escaping of one character (the cases `json.dumps` produces for the
strings the tests exercise; the claims never inspect the rendered text). -/
def jsonEscapeChar (c : Char) : String :=
  if c = '"' then "\\\""
  else if c = '\\' then "\\\\"
  else if c = '\n' then "\\n"
  else if c = '\t' then "\\t"
  else if c = '\r' then "\\r"
  else String.mk [c]

/-- JSON string literal. -/
def jsonStr (s : String) : String :=
  "\"" ++ String.join (s.toList.map jsonEscapeChar) ++ "\""

/-- JSON object for one content part, as `_dump_content` builds it: text
parts keep type and text; image parts keep type, source-type, media-type and
the string form of the data; other parts are skipped. -/
def dumpPart : ContentPart → Option String
  | .text t =>
      some ("\x7b\"type\": \"text\", \"text\": " ++ jsonStr t ++ "\x7d")
  | .image st mt d =>
      some ("\x7b\"type\": \"image\", \"source\": \x7b\"type\": " ++ jsonStr st
        ++ ", \"media_type\": " ++ jsonStr mt ++ ", \"data\": " ++ jsonStr d
        ++ "\x7d\x7d")
  | .other => none

/-- `_dump_content` (source lines 80-98): a string passes through; a list of
parts is JSON-serialized. -/
def dump_content : MsgContent → String
  | .str s => s
  | .parts l => "[" ++ String.intercalate ", " (l.filterMap dumpPart) ++ "]"

/-- Writes `llm.prompts.<i>.user` for each message, in order, starting at
index `i` (the `enumerate` loop of `_set_input_attributes`). -/
def writePromptMessages : Span → Nat → List Message → Span
  | sp, _, [] => sp
  | sp, i, m :: ms =>
      writePromptMessages
        (set_span_attribute sp (.promptUser i) (some (.str (dump_content m.content))))
        (i + 1) ms

/-- `_set_input_attributes` (source lines 101-128). -/
def set_input_attributes (env : Env) (sp : Span) (req : Request) : Span :=
  let sp := set_span_attribute sp .requestModel (req.model.map .str)
  let sp := set_span_attribute sp .requestMaxTokens (req.max_tokens_to_sample.map .int)
  let sp := set_span_attribute sp .temperature (req.temperature.map .rat)
  let sp := set_span_attribute sp .topP (req.top_p.map .rat)
  let sp := set_span_attribute sp .frequencyPenalty (req.frequency_penalty.map .rat)
  let sp := set_span_attribute sp .presencePenalty (req.presence_penalty.map .rat)
  let sp := set_span_attribute sp .isStreaming (req.stream.map .bool)
  if env.sendPrompts then
    match req.prompt with
    | some p => set_span_attribute sp (.promptUser 0) (some (.str p))
    | none =>
        match req.messages with
        | some msgs => writePromptMessages sp 0 msgs
        | none => sp
  else sp

/-- Writes `llm.completions.<i>.content` for each content item, in order
(the `enumerate` loop of `_set_span_completions`). -/
def writeContentItems : Span → Nat → List ContentBlock → Span
  | sp, _, [] => sp
  | sp, i, c :: cs =>
      writeContentItems
        (set_span_attribute sp (.completionContent i) (some (.str c.text)))
        (i + 1) cs

/-- `_set_span_completions` (source lines 131-143). -/
def set_span_completions (sp : Span) (r : Response) : Span :=
  let sp := set_span_attribute sp (.completionFinishReason 0) (r.stop_reason.map .str)
  if truthyStr r.completion then
    set_span_attribute sp (.completionContent 0) (r.completion.map .str)
  else if truthyList r.content then
    writeContentItems sp 0 (r.content.getD [])
  else sp

/-- `_set_response_attributes` (source lines 246-265): response model, then
— when a `usage` sub-structure is present — the three token-usage attributes
from it, then (behind the send-prompts flag) the completions. -/
def set_response_attributes (env : Env) (sp : Span) (r : Response) : Span :=
  let sp := set_span_attribute sp .responseModel (r.model.map .str)
  let sp :=
    match r.usage with
    | some u =>
        let sp := set_span_attribute sp .usagePromptTokens (some (.int u.input_tokens))
        let sp := set_span_attribute sp .usageCompletionTokens (some (.int u.output_tokens))
        set_span_attribute sp .usageTotalTokens (some (.int (u.input_tokens + u.output_tokens)))
    | none => sp
  if env.sendPrompts then set_span_completions sp r else sp

/-- The TypeError `anthropic.count_tokens` raises when handed a non-string
(a list-valued message content). -/
def countTokensTypeError : Exn :=
  { className := "TypeError", msg := "expected string" }

/-- Applying the client's `count_tokens` to a message content: a string is
counted, a list of parts raises. -/
def countTokensContent (env : Env) : MsgContent → Except Exn Int
  | .str s => .ok (env.countTokens s)
  | .parts _ => .error countTokensTypeError

/-- `sum([anthropic.count_tokens(m.get("content")) for m in messages])`:
left to right, aborting at the first raise. -/
def countMessagesTokens (env : Env) : List Message → Except Exn Int
  | [] => .ok 0
  | m :: ms => do
      let a ← countTokensContent env m.content
      let b ← countMessagesTokens env ms
      pure (a + b)

/-- The prompt token count both `_set_token_usage` variants compute: from
the `prompt` key when truthy, else summed over `messages` when truthy, else
0.  May raise when a message content is a list. -/
def computedPromptTokens (env : Env) (req : Request) : Except Exn Int :=
  if truthyStr req.prompt then .ok (env.countTokens (req.prompt.getD ""))
  else if truthyList req.messages then countMessagesTokens env (req.messages.getD [])
  else .ok 0

/-- The completion token count both `_set_token_usage` variants compute:
from the `completion` field when truthy, else from the text of the first
`content` item when the list is truthy, else 0. -/
def computedCompletionTokens (env : Env) (r : Response) : Int :=
  if truthyStr r.completion then env.countTokens (r.completion.getD "")
  else
    match r.content with
    | some (c :: _) => env.countTokens c.text
    | _ => 0

/-- The choice count of `_set_token_usage`: the length of a list-valued
`content`, else 1 for a truthy `completion`, else 0. -/
def choiceCount (r : Response) : Int :=
  match r.content with
  | some l => (l.length : Int)
  | none => if truthyStr r.completion then 1 else 0

/-- `_set_token_usage` (source lines 178-243).  Returns the span as mutated
so far, the data points recorded so far, and the exception raised (if any;
a raise can only happen while counting the prompt tokens, before any
effect).  `tokenCounter` / `choiceCounter` tell whether the respective
counter objects are non-None. -/
def set_token_usage (env : Env) (sp : Span) (req : Request) (r : Response)
    (mattrs : List (MAttrKey × Option String)) (tokenCounter choiceCounter : Bool) :
    Span × List MetricPoint × Option Exn :=
  match computedPromptTokens env req with
  | .error e => (sp, [], some e)
  | .ok promptTokens =>
      let pts1 : List MetricPoint :=
        if tokenCounter = true ∧ 0 ≤ promptTokens then
          [{ instrument := .tokens, value := promptTokens,
             attrs := mattrs ++ [(.tokenType, some "prompt")] }]
        else []
      let completionTokens := computedCompletionTokens env r
      let pts2 : List MetricPoint :=
        if tokenCounter = true ∧ 0 ≤ completionTokens then
          [{ instrument := .tokens, value := completionTokens,
             attrs := mattrs ++ [(.tokenType, some "completion")] }]
        else []
      let totalTokens := promptTokens + completionTokens
      let choices := choiceCount r
      let pts3 : List MetricPoint :=
        if 0 < choices ∧ choiceCounter = true then
          [{ instrument := .choices, value := choices,
             attrs := mattrs ++ [(.stopReason, r.stop_reason)] }]
        else []
      let sp := set_span_attribute sp .usagePromptTokens (some (.int promptTokens))
      let sp := set_span_attribute sp .usageCompletionTokens (some (.int completionTokens))
      let sp := set_span_attribute sp .usageTotalTokens (some (.int totalTokens))
      (sp, pts1 ++ pts2 ++ pts3, none)

/-- `_set_token_usage_a` (source lines 146-175): the async variant — same
token computation and span writes, no metric recording. -/
def set_token_usage_a (env : Env) (sp : Span) (req : Request) (r : Response) :
    Span × Option Exn :=
  match computedPromptTokens env req with
  | .error e => (sp, some e)
  | .ok promptTokens =>
      let completionTokens := computedCompletionTokens env r
      let totalTokens := promptTokens + completionTokens
      let sp := set_span_attribute sp .usagePromptTokens (some (.int promptTokens))
      let sp := set_span_attribute sp .usageCompletionTokens (some (.int completionTokens))
      let sp := set_span_attribute sp .usageTotalTokens (some (.int totalTokens))
      (sp, none)

/-- `_get_shared_metric_attributes` (source lines 332-343): from a truthy
response, the response model (a `Stream` object's `__dict__` has no `model`,
so a streaming response yields `None` there); else, from an exception, its
class name; else empty. -/
def get_shared_metric_attributes :
    Option CallResult → Option Exn → List (MAttrKey × Option String)
  | some (.resp r), _ => [(.responseModel, r.model)]
  | some (.stream _), _ => [(.responseModel, none)]
  | some .noneRes, e? =>
      match e? with
      | some e => [(.errorType, some e.className)]
      | none => []
  | none, e? =>
      match e? with
      | some e => [(.errorType, some e.className)]
      | none => []

/-- Modelled from the spec: `_build_from_streaming_response` lives in the
`streaming` module, which is not among the sources.  Per the spec (§4.3),
the adapter yields every item unchanged and in order while accumulating the
text deltas; once the source is exhausted it synthesizes the final
completion attribute from the buffer, computes token usage (prompt tokens
from the request via the counting capability, completion tokens from the
buffer), sets span status to OK and ends the span exactly once.  The value
is the finalized span together with the (unchanged) yielded items. -/
def build_from_streaming_response (env : Env) (sp : Span)
    (items : List StreamItem) (req : Request) : Span × List StreamItem :=
  let buffer := String.join (items.filterMap (fun it => it.delta))
  let promptTokens :=
    match computedPromptTokens env req with
    | .ok n => n
    | .error _ => 0
  let completionTokens := env.countTokens buffer
  let sp := set_span_attribute sp (.completionContent 0) (some (.str buffer))
  let sp := set_span_attribute sp .usagePromptTokens (some (.int promptTokens))
  let sp := set_span_attribute sp .usageCompletionTokens (some (.int completionTokens))
  let sp := set_span_attribute sp .usageTotalTokens
    (some (.int (promptTokens + completionTokens)))
  ({ sp with status := .ok, endCount := sp.endCount + 1 }, items)

/-- Modelled from the spec: `_abuild_from_streaming_response` (same missing
module); per the spec (§4.3) the asynchronous variant behaves identically to
the synchronous one apart from the suspension mechanism. -/
def abuild_from_streaming_response (env : Env) (sp : Span)
    (items : List StreamItem) (req : Request) : Span × List StreamItem :=
  build_from_streaming_response env sp items req

/-- The telemetry effects of one wrapper invocation: the span it started
(final state, if any), the metric instruments it created, the data points it
recorded, and how many times it called the wrapped callable. -/
structure RunState where
  spanStarted : Option Span
  instruments : List Instrument
  points : List MetricPoint
  invocations : Nat
  deriving DecidableEq, Repr

/-- What the caller of the synchronous instrumented method gets back. -/
inductive SyncResult where
  | ok (v : CallResult)                     -- returned unchanged
  | okStream (items : List StreamItem)      -- the wrapping generator
  | raised (e : Exn)
  deriving DecidableEq, Repr

/-- The `ValueError` raised by the metrics-disabled branch of `_wrap`
(source lines 367-373), which unpacks the 3-tuple `(None, None, None)` into
four variables. -/
def unpackValueError : Exn :=
  { className := "ValueError", msg := "not enough values to unpack (expected 4, got 3)" }

/-- The fixed attributes every wrapper span starts with (source lines
376-383): `llm.vendor = "Anthropic"`, `llm.request.type = "completion"`
(newest first, so listed in reverse write order). -/
def initialSpan (name : String) : Span :=
  { name := name,
    attrs := [(.requestType, .str "completion"), (.vendor, .str "Anthropic")],
    status := .unset, endCount := 0 }

/-- The span as both wrappers have it after the request phase: started with
the fixed attributes, then — when recording — given the input attributes
(`_set_input_attributes` failures are logged only; in this model the
extractor is total). -/
def spanWithInput (env : Env) (spanName : String) (req : Request) : Span :=
  if env.isRecording then set_input_attributes env (initialSpan spanName) req
  else initialSpan spanName

/-- The duration data points the `finally` block of `_wrap` records: one
point with value `end_time - start_time` when the end reading is truthy
(`if end_time and duration_histogram:`), none otherwise. -/
def durationPointsAt (env : Env) (mattrs : List (MAttrKey × Option String)) :
    List MetricPoint :=
  if env.timeline 1 ≠ 0 then
    [{ instrument := .duration, value := env.timeline 1 - env.timeline 0,
       attrs := mattrs }]
  else []

/-- `_wrap` (source lines 346-440), as a function of the environment, the
span name, the request kwargs and the wrapped callable's outcome.
Faithful control flow: the suppression check comes first; the
metrics-disabled branch raises `ValueError` before any instrumentation (the
3-tuple unpack); the span is started, input attributes are set when
recording; the call is clocked (`time.time()` before and after); in the
`finally` block the shared metric attributes are computed, a duration point
is recorded when the end reading is truthy, and an exception point when the
call raised; an exception then propagates (leaving the span un-ended); a
streaming result is handed to the adapter; a truthy response gets response
attributes and token usage (failures caught), status OK, and the span is
ended; a falsy response only ends the span. -/
def _wrap (env : Env) (spanName : String) (req : Request)
    (call : Outcome CallResult) : RunState × SyncResult :=
  if env.suppressed then
    ({ spanStarted := none, instruments := [], points := [], invocations := 1 },
     match call with
     | .ok v => .ok v
     | .exn e => .raised e)
  else if is_metrics_enabled env.metricsEnvVar = false then
    ({ spanStarted := none, instruments := [], points := [], invocations := 0 },
     .raised unpackValueError)
  else
    let instruments : List Instrument := [.tokens, .choices, .duration, .exceptions]
    let sp1 := spanWithInput env spanName req
    match call with
    | .exn e =>
        let mattrs := get_shared_metric_attributes none (some e)
        let durPts := durationPointsAt env mattrs
        ({ spanStarted := some sp1, instruments := instruments,
           points := durPts ++ [{ instrument := .exceptions, value := 1, attrs := mattrs }],
           invocations := 1 },
         .raised e)
    | .ok v =>
        let mattrs := get_shared_metric_attributes (some v) none
        let durPts := durationPointsAt env mattrs
        match v with
        | .stream items =>
            let built := build_from_streaming_response env sp1 items req
            ({ spanStarted := some built.1, instruments := instruments,
               points := durPts, invocations := 1 },
             .okStream built.2)
        | .noneRes =>
            ({ spanStarted := some { sp1 with endCount := sp1.endCount + 1 },
               instruments := instruments, points := durPts, invocations := 1 },
             .ok v)
        | .resp r =>
            let stu :=
              if env.isRecording then
                set_token_usage env (set_response_attributes env sp1 r) req r mattrs true true
              else (sp1, [], none)
            let sp2 := stu.1
            let tokenPts := stu.2.1
            let sp3 := if env.isRecording then { sp2 with status := .ok } else sp2
            ({ spanStarted := some { sp3 with endCount := sp3.endCount + 1 },
               instruments := instruments, points := durPts ++ tokenPts,
               invocations := 1 },
             .ok v)

/-- What the caller of the asynchronous instrumented method observes after
awaiting it once.  `coro` is an unawaited coroutine object handed back as a
value (the suppressed branch of `_awrap` returns `wrapped(*args, **kwargs)`
without awaiting it). -/
inductive AsyncResult where
  | ok (v : CallResult)
  | okStream (items : List StreamItem)
  | coro (call : Outcome CallResult)
  | raised (e : Exn)
  deriving DecidableEq, Repr

/-- `_awrap` (source lines 442-484): no metrics at all; the suppressed
branch returns the wrapped call's coroutine unawaited; otherwise a span is
started, input attributes set when recording, the call awaited (an exception
propagates with the span left open — there is no try around it), a streaming
result handed to the async adapter, a truthy response given response
attributes and async token usage (failures caught), status OK, span ended;
a falsy response only ends the span. -/
def _awrap (env : Env) (spanName : String) (req : Request)
    (call : Outcome CallResult) : RunState × AsyncResult :=
  if env.suppressed then
    ({ spanStarted := none, instruments := [], points := [], invocations := 1 },
     .coro call)
  else
    let sp1 := spanWithInput env spanName req
    match call with
    | .exn e =>
        ({ spanStarted := some sp1, instruments := [], points := [], invocations := 1 },
         .raised e)
    | .ok v =>
        match v with
        | .stream items =>
            let built := abuild_from_streaming_response env sp1 items req
            ({ spanStarted := some built.1, instruments := [], points := [],
               invocations := 1 },
             .okStream built.2)
        | .noneRes =>
            ({ spanStarted := some { sp1 with endCount := sp1.endCount + 1 },
               instruments := [], points := [], invocations := 1 },
             .ok v)
        | .resp r =>
            let stu :=
              if env.isRecording then
                set_token_usage_a env (set_response_attributes env sp1 r) req r
              else (sp1, none)
            let sp2 := stu.1
            let sp3 := if env.isRecording then { sp2 with status := .ok } else sp2
            ({ spanStarted := some { sp3 with endCount := sp3.endCount + 1 },
               instruments := [], points := [], invocations := 1 },
             .ok v)

end OTel

namespace LC

open OTel (Exn Outcome AttrKey AttrVal Span SpanStatus getAttr spanSetAttr jsonStr)

/-- The instrumented chat-model instance: its runtime class name and its
optional `model` / `model_name` attributes (`none` models `hasattr` false). -/
structure ChatInstance where
  className : String
  model : Option String := none
  model_name : Option String := none

/-- A LangChain prompt message's content: a flat value or a list (which the
wrapper JSON-serializes). -/
inductive LCContent where
  | str (s : String)
  | parts (l : List String)
  deriving DecidableEq, Repr

/-- One prompt message (`args[0][0]` entries); the wrapper reads `.content`. -/
structure ChatMessage where
  content : LCContent
  deriving DecidableEq, Repr

/-- One generation of the LLM result; the wrapper reads `.text`. -/
structure ChatGeneration where
  text : String
  deriving DecidableEq, Repr

/-- The wrapped chat call's return value: `return_value.generations` is a
list of generation lists. -/
structure LLMResult where
  generations : List (List ChatGeneration)
  deriving DecidableEq, Repr

/-- The `AttributeError` raised by `instance.model_name` when the instance
has neither a `model` nor a `model_name` attribute. -/
def attributeError : Exn :=
  { className := "AttributeError", msg := "model_name" }

/-- The `IndexError` raised by `generation[0]` on an empty generation list. -/
def indexError : Exn :=
  { className := "IndexError", msg := "list index out of range" }

/-- The request model `_handle_request` resolves:
`instance.model if hasattr(instance, "model") else instance.model_name`. -/
def chatRequestModel (inst : ChatInstance) : Option String :=
  if inst.model.isSome then inst.model else inst.model_name

/-- The prompt-attribute writes of `_handle_request` (`enumerate` over
`args[0][0]`), starting at index `i`. -/
def writeChatPrompts : Span → Nat → List ChatMessage → Span
  | sp, _, [] => sp
  | sp, i, m :: ms =>
      let v : AttrVal :=
        match m.content with
        | .parts l => .str ("[" ++ String.intercalate ", " (l.map jsonStr) ++ "]")
        | .str c => .str c
      writeChatPrompts (spanSetAttr sp (.promptUser i) v) (i + 1) ms

/-- `_handle_request` (custom_chat_wrapper lines 41-57): resolves the model
(raising `AttributeError` when the instance has neither attribute, before
any write), then sets `llm.request.type = "chat"`, `llm.request.model` and
`llm.response.model` to the request's model, then (behind the send-prompts
flag) the prompt attributes.  Returns the span so far and the exception, if
any. -/
def handle_request (sendPrompts : Bool) (sp : Span) (msgs : List ChatMessage)
    (inst : ChatInstance) : Span × Option Exn :=
  match chatRequestModel inst with
  | none => (sp, some attributeError)
  | some m =>
      let sp := spanSetAttr sp .requestType (.str "chat")
      let sp := spanSetAttr sp .requestModel (.str m)
      let sp := spanSetAttr sp .responseModel (.str m)
      if sendPrompts then (writeChatPrompts sp 0 msgs, none) else (sp, none)

/-- The completion-attribute writes of `_handle_response` (`enumerate` over
`return_value.generations`): each step reads `generation[0]`, raising
`IndexError` on an empty inner list (keeping the writes made so far). -/
def writeGenerations : Span → Nat → List (List ChatGeneration) → Span × Option Exn
  | sp, _, [] => (sp, none)
  | sp, _, [] :: _ => (sp, some indexError)
  | sp, i, (g0 :: _) :: gs =>
      writeGenerations (spanSetAttr sp (.completionContent i) (.str g0.text)) (i + 1) gs

/-- `_handle_response` (custom_chat_wrapper lines 60-66). -/
def handle_response (sendPrompts : Bool) (sp : Span) (res : LLMResult) :
    Span × Option Exn :=
  if sendPrompts then writeGenerations sp 0 res.generations else (sp, none)

/-- The effects of one chat-wrapper invocation: the span (final state, if
one was started), a snapshot of the span at the moment the wrapped call was
invoked (if it was), and the invocation count.  The chat wrapper creates no
metric instruments and records no data points. -/
structure ChatRun where
  spanStarted : Option Span
  spanAtInvocation : Option Span
  invocations : Nat
  deriving DecidableEq, Repr

/-- What the caller of the instrumented chat method gets back. -/
inductive ChatResult where
  | ok (v : LLMResult)
  | raised (e : Exn)
  deriving DecidableEq, Repr

/-- `chat_wrapper` (custom_chat_wrapper lines 11-23): suppression makes it a
pure passthrough with no span; otherwise `start_as_current_span` opens a
span named after the instance's class, `_handle_request` runs (its
exception ends the span — the context manager — with error status, and the
wrapped call is never invoked), then the wrapped call (its exception also
ends the span with error status), then `_handle_response` (same), and on
success the span is ended once by the context manager. -/
def chat_wrapper (env : OTel.Env) (inst : ChatInstance) (msgs : List ChatMessage)
    (call : Outcome LLMResult) : ChatRun × ChatResult :=
  if env.suppressed then
    ({ spanStarted := none, spanAtInvocation := none, invocations := 1 },
     match call with
     | .ok v => .ok v
     | .exn e => .raised e)
  else
    let sp0 : Span :=
      { name := "langchain.task." ++ inst.className, attrs := [],
        status := .unset, endCount := 0 }
    let hr := handle_request env.sendPrompts sp0 msgs inst
    match hr.2 with
    | some e =>
        ({ spanStarted := some { hr.1 with status := .error, endCount := hr.1.endCount + 1 },
           spanAtInvocation := none, invocations := 0 },
         .raised e)
    | none =>
        let sp1 := hr.1
        match call with
        | .exn e =>
            ({ spanStarted := some { sp1 with status := .error, endCount := sp1.endCount + 1 },
               spanAtInvocation := some sp1, invocations := 1 },
             .raised e)
        | .ok v =>
            let hs := handle_response env.sendPrompts sp1 v
            let st : SpanStatus :=
              match hs.2 with
              | some _ => .error
              | none => hs.1.status
            ({ spanStarted := some { hs.1 with status := st, endCount := hs.1.endCount + 1 },
               spanAtInvocation := some sp1, invocations := 1 },
             match hs.2 with
             | some e => .raised e
             | none => .ok v)

end LC

namespace OTel

/-- A concrete token counter for the concrete runs: the string's length. -/
def lenCounter : String → Int := fun s => (s.length : Int)

/-- A concrete wall clock: reading `n` is `n + 1` (so readings are truthy). -/
def tickClock : Nat → Int := fun n => (n : Int) + 1

/-- Concrete environment for the C1 run: metrics policy flag off. -/
def envC1 : Env :=
  { countTokens := lenCounter, sendPrompts := true,
    metricsEnvVar := some "false", suppressed := false,
    isRecording := true, timeline := tickClock }

/-- Concrete request for the C1 run. -/
def reqC1 : Request :=
  { model := some "claude-instant-1.2", max_tokens_to_sample := some 2048,
    prompt := some "Hello" }

/-- Concrete response for the C1 run. -/
def respC1 : Response :=
  { model := some "claude-instant-1.2", completion := some "Hi",
    stop_reason := some "stop_sequence" }

/-- Concrete environment for the C2 run: metrics policy flag off. -/
def envC2 : Env :=
  { countTokens := lenCounter, sendPrompts := true,
    metricsEnvVar := some "false", suppressed := false,
    isRecording := true, timeline := tickClock }

/-- Concrete request for the C2 run. -/
def reqC2 : Request :=
  { model := some "claude-instant-1.2", prompt := some "Hi" }

/-- Concrete response for the C2 run. -/
def respC2 : Response :=
  { model := some "claude-instant-1.2", completion := some "Hello" }

/-- Concrete environment for the C3 counterexample: metrics enabled,
not suppressed, recording. -/
def envC3 : Env :=
  { countTokens := lenCounter, sendPrompts := true,
    metricsEnvVar := none, suppressed := false,
    isRecording := true, timeline := tickClock }

/-- Concrete request for the C3 counterexample. -/
def reqC3 : Request :=
  { model := some "claude-instant-1.2", prompt := some "Hello" }

/-- The domain exception the wrapped callable raises in the C3 and C6
counterexamples. -/
def apiError : Exn :=
  { className := "APIError", msg := "overloaded" }

/-- Concrete environment for the C4 counterexample. -/
def envC4 : Env :=
  { countTokens := lenCounter, sendPrompts := true,
    metricsEnvVar := none, suppressed := false,
    isRecording := true, timeline := tickClock }

/-- Concrete request for the C4 counterexample: a prompt of 2 characters,
so the counting capability reports 2 prompt tokens. -/
def reqC4 : Request :=
  { model := some "claude-instant-1.2", prompt := some "xy" }

/-- Concrete response for the C4 counterexample: carries a usage
sub-structure (8 input, 9 output tokens) and a 3-character completion, so
the counting capability reports 3 completion tokens. -/
def respC4 : Response :=
  { model := some "claude-instant-1.2", completion := some "abc",
    stop_reason := some "stop_sequence",
    usage := some { input_tokens := 8, output_tokens := 9 } }

/-- Concrete environment for the C5 counterexample. -/
def envC5 : Env :=
  { countTokens := lenCounter, sendPrompts := true,
    metricsEnvVar := none, suppressed := false,
    isRecording := true, timeline := tickClock }

/-- Concrete request for the C5 counterexample: one message with empty
string content, so the computed prompt token count is 0 (falsy). -/
def reqC5 : Request :=
  { model := some "claude-instant-1.2",
    messages := some [{ role := "user", content := .str "" }] }

/-- Concrete response for the C5 counterexample: usage present (8 in, 9
out) and a 3-character completion. -/
def respC5 : Response :=
  { model := some "claude-instant-1.2", completion := some "abc",
    stop_reason := some "end_turn",
    usage := some { input_tokens := 8, output_tokens := 9 } }

/-- Concrete environment for the C6 counterexample: the ambient suppression
flag is set. -/
def envC6s : Env :=
  { countTokens := lenCounter, sendPrompts := true,
    metricsEnvVar := none, suppressed := true,
    isRecording := true, timeline := tickClock }

/-- Concrete request for the C6 counterexample. -/
def reqC6 : Request :=
  { model := some "claude-instant-1.2", prompt := some "Hello" }

/-- Concrete response for the C3 witness run. -/
def respC3 : Response :=
  { model := some "claude-instant-1.2", completion := some "Hello!",
    stop_reason := some "stop_sequence" }

/-- Concrete stream for the C3 witness run. -/
def streamC3 : List StreamItem :=
  [{ delta := some "He" }, { delta := none }, { delta := some "llo" }]

/-- Concrete request for the C5 witness run: a 2-character prompt, so the
computed prompt token count is 2. -/
def reqC5w : Request :=
  { model := some "claude-instant-1.2", prompt := some "xy" }

/-- Concrete environment for the C6 witness run: metrics enabled, not
suppressed. -/
def envC6n : Env :=
  { countTokens := lenCounter, sendPrompts := true,
    metricsEnvVar := none, suppressed := false,
    isRecording := true, timeline := tickClock }

/-- Concrete environment for the C7 witness run: suppression flag set. -/
def envC7 : Env :=
  { countTokens := lenCounter, sendPrompts := true,
    metricsEnvVar := none, suppressed := true,
    isRecording := true, timeline := tickClock }

/-- Concrete environment for the C9 witness run. -/
def envC9 : Env :=
  { countTokens := lenCounter, sendPrompts := true,
    metricsEnvVar := none, suppressed := false,
    isRecording := true, timeline := tickClock }

/-- Concrete response for the C9 witness run: no free-text completion, two
content items of 4 and 2 characters. -/
def respC9 : Response :=
  { model := some "claude-3-opus-20240229",
    content := some [{ text := "abcd" }, { text := "zz" }],
    stop_reason := some "end_turn" }

/-- Concrete environment for the C8 counterexample: metrics enabled, not
suppressed. -/
def envC8 : Env :=
  { countTokens := lenCounter, sendPrompts := true,
    metricsEnvVar := none, suppressed := false,
    isRecording := true, timeline := tickClock }

/-- Concrete request for the C8 counterexample. -/
def reqC8 : Request :=
  { model := some "claude-3-opus-20240229",
    messages := some [{ role := "user", content := .str "Tell me a joke" }] }

/-- Concrete response for the C8 counterexample. -/
def respC8 : Response :=
  { model := some "claude-3-opus-20240229",
    content := some [{ text := "Here is a joke" }],
    stop_reason := some "end_turn",
    usage := some { input_tokens := 8, output_tokens := 4 } }

end OTel

namespace LC

/-- Concrete chat instance for the C10 witness: no `model` attribute, a
`model_name` attribute of `"claude-2"`. -/
def instC10 : ChatInstance :=
  { className := "ChatAnthropic", model := none, model_name := some "claude-2" }

/-- Concrete environment for the C10 witness run. -/
def envC10 : OTel.Env :=
  { countTokens := OTel.lenCounter, sendPrompts := true,
    metricsEnvVar := none, suppressed := false,
    isRecording := true, timeline := OTel.tickClock }

/-- Concrete chat result for the C10 witness run. -/
def resC10 : LLMResult :=
  { generations := [[{ text := "Here is a joke" }]] }

end LC

namespace OTel

/-- Writing an attribute never touches the end count. -/
theorem set_span_attribute_endCount (sp : Span) (k : AttrKey) (v : Option AttrVal) :
    (set_span_attribute sp k v).endCount = sp.endCount := by
  cases v with
  | none => rfl
  | some w =>
      simp only [set_span_attribute]
      split <;> rfl

/-- The prompt-message loop never touches the end count. -/
theorem writePromptMessages_endCount (ms : List Message) :
    ∀ (sp : Span) (i : Nat), (writePromptMessages sp i ms).endCount = sp.endCount := by
  induction ms with
  | nil => intro sp i; rfl
  | cons m ms ih =>
      intro sp i
      rw [writePromptMessages, ih, set_span_attribute_endCount]

/-- The content-item loop never touches the end count. -/
theorem writeContentItems_endCount (cs : List ContentBlock) :
    ∀ (sp : Span) (i : Nat), (writeContentItems sp i cs).endCount = sp.endCount := by
  induction cs with
  | nil => intro sp i; rfl
  | cons c cs ih =>
      intro sp i
      rw [writeContentItems, ih, set_span_attribute_endCount]

/-- The input-attribute extractor never touches the end count. -/
theorem set_input_attributes_endCount (env : Env) (sp : Span) (req : Request) :
    (set_input_attributes env sp req).endCount = sp.endCount := by
  simp only [set_input_attributes]
  split
  · split
    · simp only [set_span_attribute_endCount]
    · split
      · simp only [writePromptMessages_endCount, set_span_attribute_endCount]
      · simp only [set_span_attribute_endCount]
  · simp only [set_span_attribute_endCount]

/-- The completions extractor never touches the end count. -/
theorem set_span_completions_endCount (sp : Span) (r : Response) :
    (set_span_completions sp r).endCount = sp.endCount := by
  simp only [set_span_completions]
  split
  · simp only [set_span_attribute_endCount]
  · split
    · simp only [writeContentItems_endCount, set_span_attribute_endCount]
    · simp only [set_span_attribute_endCount]

/-- The response-attribute extractor never touches the end count. -/
theorem set_response_attributes_endCount (env : Env) (sp : Span) (r : Response) :
    (set_response_attributes env sp r).endCount = sp.endCount := by
  simp only [set_response_attributes]
  split
  · split <;> simp only [set_span_completions_endCount, set_span_attribute_endCount]
  · split <;> simp only [set_span_attribute_endCount]

/-- The token-usage extractor never touches the end count. -/
theorem set_token_usage_endCount (env : Env) (sp : Span) (req : Request)
    (r : Response) (mattrs : List (MAttrKey × Option String)) (tc cc : Bool) :
    (set_token_usage env sp req r mattrs tc cc).1.endCount = sp.endCount := by
  simp only [set_token_usage]
  split
  · rfl
  · simp only [set_span_attribute_endCount]

/-- The async token-usage extractor never touches the end count. -/
theorem set_token_usage_a_endCount (env : Env) (sp : Span) (req : Request)
    (r : Response) :
    (set_token_usage_a env sp req r).1.endCount = sp.endCount := by
  simp only [set_token_usage_a]
  split
  · rfl
  · simp only [set_span_attribute_endCount]

/-- The request-phase span has never been ended. -/
theorem spanWithInput_endCount (env : Env) (n : String) (req : Request) :
    (spanWithInput env n req).endCount = 0 := by
  simp only [spanWithInput]
  split
  · simp only [set_input_attributes_endCount]; rfl
  · rfl

/-- The streaming adapter ends the span it is handed exactly once. -/
theorem build_from_streaming_response_endCount (env : Env) (sp : Span)
    (items : List StreamItem) (req : Request) :
    (build_from_streaming_response env sp items req).1.endCount = sp.endCount + 1 := by
  simp only [build_from_streaming_response, set_span_attribute_endCount]

/-- The async streaming adapter ends the span it is handed exactly once. -/
theorem abuild_from_streaming_response_endCount (env : Env) (sp : Span)
    (items : List StreamItem) (req : Request) :
    (abuild_from_streaming_response env sp items req).1.endCount = sp.endCount + 1 :=
  build_from_streaming_response_endCount env sp items req

/-- Changing the status leaves attribute lookups unchanged. -/
theorem getAttr_update_status (sp : Span) (st : SpanStatus) (k : AttrKey) :
    getAttr { sp with status := st } k = getAttr sp k := rfl

/-- Changing the end count leaves attribute lookups unchanged. -/
theorem getAttr_update_endCount (sp : Span) (m : Nat) (k : AttrKey) :
    getAttr { sp with endCount := m } k = getAttr sp k := rfl

/-- Writing one key does not change the lookup of a different key. -/
theorem getAttr_set_span_attribute_ne (sp : Span) (k' k : AttrKey)
    (v : Option AttrVal) (h : k' ≠ k) :
    getAttr (set_span_attribute sp k' v) k = getAttr sp k := by
  cases v with
  | none => rfl
  | some w =>
      simp only [set_span_attribute]
      split
      · simp [getAttr, List.find?, h]
      · rfl

/-- Writing a truthy value makes it the key's current value. -/
theorem getAttr_set_span_attribute_self (sp : Span) (k : AttrKey) (w : AttrVal)
    (h : w.truthy = true) :
    getAttr (set_span_attribute sp k (some w)) k = some w := by
  simp [set_span_attribute, h, getAttr, List.find?]

/-- The prompt-message loop only writes `llm.prompts.<i>.user` keys. -/
theorem getAttr_writePromptMessages (k : AttrKey)
    (hk : ∀ j, k ≠ AttrKey.promptUser j) (ms : List Message) :
    ∀ (sp : Span) (i : Nat), getAttr (writePromptMessages sp i ms) k = getAttr sp k := by
  induction ms with
  | nil => intro sp i; rfl
  | cons m ms ih =>
      intro sp i
      rw [writePromptMessages, ih, getAttr_set_span_attribute_ne _ _ _ _ (Ne.symm (hk i))]

/-- The content-item loop only writes `llm.completions.<i>.content` keys. -/
theorem getAttr_writeContentItems (k : AttrKey)
    (hk : ∀ j, k ≠ AttrKey.completionContent j) (cs : List ContentBlock) :
    ∀ (sp : Span) (i : Nat), getAttr (writeContentItems sp i cs) k = getAttr sp k := by
  induction cs with
  | nil => intro sp i; rfl
  | cons c cs ih =>
      intro sp i
      rw [writeContentItems, ih, getAttr_set_span_attribute_ne _ _ _ _ (Ne.symm (hk i))]

/-- The input-attribute extractor only writes request and prompt keys; any
other key's lookup is unchanged. -/
theorem getAttr_set_input_attributes (env : Env) (sp : Span) (req : Request)
    (k : AttrKey)
    (h1 : AttrKey.requestModel ≠ k) (h2 : AttrKey.requestMaxTokens ≠ k)
    (h3 : AttrKey.temperature ≠ k) (h4 : AttrKey.topP ≠ k)
    (h5 : AttrKey.frequencyPenalty ≠ k) (h6 : AttrKey.presencePenalty ≠ k)
    (h7 : AttrKey.isStreaming ≠ k) (h8 : ∀ j, k ≠ AttrKey.promptUser j) :
    getAttr (set_input_attributes env sp req) k = getAttr sp k := by
  simp only [set_input_attributes]
  split
  · split
    · rw [getAttr_set_span_attribute_ne _ _ _ _ (Ne.symm (h8 0)),
        getAttr_set_span_attribute_ne _ _ _ _ h7,
        getAttr_set_span_attribute_ne _ _ _ _ h6,
        getAttr_set_span_attribute_ne _ _ _ _ h5,
        getAttr_set_span_attribute_ne _ _ _ _ h4,
        getAttr_set_span_attribute_ne _ _ _ _ h3,
        getAttr_set_span_attribute_ne _ _ _ _ h2,
        getAttr_set_span_attribute_ne _ _ _ _ h1]
    · split
      · rw [getAttr_writePromptMessages k h8,
          getAttr_set_span_attribute_ne _ _ _ _ h7,
          getAttr_set_span_attribute_ne _ _ _ _ h6,
          getAttr_set_span_attribute_ne _ _ _ _ h5,
          getAttr_set_span_attribute_ne _ _ _ _ h4,
          getAttr_set_span_attribute_ne _ _ _ _ h3,
          getAttr_set_span_attribute_ne _ _ _ _ h2,
          getAttr_set_span_attribute_ne _ _ _ _ h1]
      · rw [getAttr_set_span_attribute_ne _ _ _ _ h7,
          getAttr_set_span_attribute_ne _ _ _ _ h6,
          getAttr_set_span_attribute_ne _ _ _ _ h5,
          getAttr_set_span_attribute_ne _ _ _ _ h4,
          getAttr_set_span_attribute_ne _ _ _ _ h3,
          getAttr_set_span_attribute_ne _ _ _ _ h2,
          getAttr_set_span_attribute_ne _ _ _ _ h1]
  · rw [getAttr_set_span_attribute_ne _ _ _ _ h7,
      getAttr_set_span_attribute_ne _ _ _ _ h6,
      getAttr_set_span_attribute_ne _ _ _ _ h5,
      getAttr_set_span_attribute_ne _ _ _ _ h4,
      getAttr_set_span_attribute_ne _ _ _ _ h3,
      getAttr_set_span_attribute_ne _ _ _ _ h2,
      getAttr_set_span_attribute_ne _ _ _ _ h1]

/-- On the request-phase span no `llm.completions.<i>.content` attribute is
set. -/
theorem spanWithInput_no_completionContent (env : Env) (n : String)
    (req : Request) (i : Nat) :
    getAttr (spanWithInput env n req) (.completionContent i) = none := by
  simp only [spanWithInput]
  split
  · rw [getAttr_set_input_attributes env _ req _ (by simp) (by simp) (by simp)
      (by simp) (by simp) (by simp) (by simp) (fun j => by simp)]
    simp [getAttr, initialSpan, List.find?]
  · simp [getAttr, initialSpan, List.find?]

/-- On the request-phase span no `llm.completions.<i>.finish_reason`
attribute is set. -/
theorem spanWithInput_no_completionFinishReason (env : Env) (n : String)
    (req : Request) (i : Nat) :
    getAttr (spanWithInput env n req) (.completionFinishReason i) = none := by
  simp only [spanWithInput]
  split
  · rw [getAttr_set_input_attributes env _ req _ (by simp) (by simp) (by simp)
      (by simp) (by simp) (by simp) (by simp) (fun j => by simp)]
    simp [getAttr, initialSpan, List.find?]
  · simp [getAttr, initialSpan, List.find?]

/-- The duration points of the `finally` block all sit on the duration
histogram, never on the exception counter. -/
theorem exceptionPoints_durationPointsAt (env : Env)
    (m : List (MAttrKey × Option String)) :
    exceptionPoints (durationPointsAt env m) = [] := by
  simp only [durationPointsAt, exceptionPoints]
  split <;> simp

/-- With a truthy end reading, the `finally` block records exactly one
duration value: the difference of the two clock readings around the call. -/
theorem durationValues_durationPointsAt (env : Env)
    (m : List (MAttrKey × Option String)) (h : env.timeline 1 ≠ 0) :
    durationValues (durationPointsAt env m) = [env.timeline 1 - env.timeline 0] := by
  simp [durationValues, durationPointsAt, h]

/-- `_set_token_usage` records only token and choice data points — never a
duration value. -/
theorem durationValues_set_token_usage (env : Env) (sp : Span) (req : Request)
    (r : Response) (m : List (MAttrKey × Option String)) (tc cc : Bool) :
    durationValues (set_token_usage env sp req r m tc cc).2.1 = [] := by
  simp only [set_token_usage]
  split
  · rfl
  · simp only [durationValues, List.filterMap_append]
    split <;> split <;> split <;> simp

/-- `_set_token_usage` never records an exception data point. -/
theorem exceptionPoints_set_token_usage (env : Env) (sp : Span) (req : Request)
    (r : Response) (m : List (MAttrKey × Option String)) (tc cc : Bool) :
    exceptionPoints (set_token_usage env sp req r m tc cc).2.1 = [] := by
  simp only [set_token_usage]
  split
  · rfl
  · simp only [exceptionPoints, List.filter_append]
    split <;> split <;> split <;> simp

/-- When the computed prompt count is `P` (no raise) and the computed
prompt, completion and total counts are all nonzero (truthy), the three
token-usage attributes after `_set_token_usage` are exactly the computed
values — regardless of anything written before (in particular of
usage-derived values). -/
theorem set_token_usage_getAttr (env : Env) (sp : Span) (req : Request)
    (r : Response) (m : List (MAttrKey × Option String)) (tc cc : Bool) (P : Int)
    (hcp : computedPromptTokens env req = .ok P) (hP : P ≠ 0)
    (hC : computedCompletionTokens env r ≠ 0)
    (hT : P + computedCompletionTokens env r ≠ 0) :
    getAttr (set_token_usage env sp req r m tc cc).1 .usagePromptTokens
      = some (.int P)
    ∧ getAttr (set_token_usage env sp req r m tc cc).1 .usageCompletionTokens
      = some (.int (computedCompletionTokens env r))
    ∧ getAttr (set_token_usage env sp req r m tc cc).1 .usageTotalTokens
      = some (.int (P + computedCompletionTokens env r)) := by
  simp only [set_token_usage, hcp]
  refine ⟨?_, ?_, ?_⟩
  · rw [getAttr_set_span_attribute_ne _ _ _ _ (by simp),
      getAttr_set_span_attribute_ne _ _ _ _ (by simp),
      getAttr_set_span_attribute_self _ _ _ (by simp [AttrVal.truthy, hP])]
  · rw [getAttr_set_span_attribute_ne _ _ _ _ (by simp),
      getAttr_set_span_attribute_self _ _ _ (by simp [AttrVal.truthy, hC])]
  · rw [getAttr_set_span_attribute_self _ _ _ (by simp [AttrVal.truthy, hT])]

/-- Claim C1: with the metrics policy flag off, the instrumented sync method
raises `ValueError` (the 3-tuple `(None, None, None)` unpacked into four
variables) although the uninstrumented callable returns its response — the
passthrough claim is right and this code path is a slip. -/
theorem C1_metrics_disabled_breaks_passthrough :
    (_wrap envC1 "anthropic.completion" reqC1 (.ok (.resp respC1))).2
      = .raised unpackValueError
    ∧ (_wrap envC1 "anthropic.completion" reqC1 (.ok (.resp respC1))).2
      ≠ .ok (.resp respC1) := by
  decide

/-- Claim C2: with the metrics policy flag false the code does not skip
instrument creation and proceed — it raises `ValueError` from the 3-tuple
unpack before any instrumentation: no span is produced, no instrument or
data point is created, and the wrapped callable is never invoked, while the
claim (and the spec) say the span is still produced and the call completes
normally. -/
theorem C2_metrics_disabled_raises :
    is_metrics_enabled (some "false") = false
    ∧ _wrap envC2 "anthropic.completion" reqC2 (.ok (.resp respC2))
      = ({ spanStarted := none, instruments := [], points := [], invocations := 0 },
         .raised unpackValueError) := by
  decide

/-- Claim C3, counterexample: when the wrapped callable raises, the span
started by the synchronous wrapper is never ended (`span.end()` on line 439
is skipped by the re-raise), refuting "ended exactly once on every code
path". -/
theorem C3_exception_leaves_span_open :
    ((_wrap envC3 "anthropic.completion" reqC3 (.exn apiError)).1.spanStarted.map
        (fun sp => sp.endCount)) = some 0
    ∧ ((_wrap envC3 "anthropic.completion" reqC3 (.exn apiError)).1.spanStarted.map
        (fun sp => sp.endCount)) ≠ some 1 := by
  decide

/-- Claim C4, counterexample: the response carries usage (8 input, 9 output
tokens), yet the final span attributes are the token-counting capability's
values (2 and 3): `_set_token_usage` runs after `_set_response_attributes`
and overwrites the usage-derived attributes, so the usage source does not
take precedence. -/
theorem C4_usage_not_precedent :
    respC4.usage = some { input_tokens := 8, output_tokens := 9 }
    ∧ ((_wrap envC4 "anthropic.completion" reqC4 (.ok (.resp respC4))).1.spanStarted.map
        (fun sp => getAttr sp .usagePromptTokens)) = some (some (.int 2))
    ∧ ((_wrap envC4 "anthropic.completion" reqC4 (.ok (.resp respC4))).1.spanStarted.map
        (fun sp => getAttr sp .usageCompletionTokens)) = some (some (.int 3))
    ∧ ((_wrap envC4 "anthropic.completion" reqC4 (.ok (.resp respC4))).1.spanStarted.map
        (fun sp => getAttr sp .usagePromptTokens)) ≠ some (some (.int 8)) := by
  decide

/-- Claim C5, counterexample: a non-streaming successful call for which the
recorded `llm.usage.total_tokens` (3) differs from the sum of the recorded
`llm.usage.prompt_tokens` (8, surviving from the usage sub-structure
because the computed prompt count 0 is falsy and never written) and
`llm.usage.completion_tokens` (3). -/
theorem C5_total_mismatch :
    ((_wrap envC5 "anthropic.completion" reqC5 (.ok (.resp respC5))).1.spanStarted.map
        (fun sp => getAttr sp .usagePromptTokens)) = some (some (.int 8))
    ∧ ((_wrap envC5 "anthropic.completion" reqC5 (.ok (.resp respC5))).1.spanStarted.map
        (fun sp => getAttr sp .usageCompletionTokens)) = some (some (.int 3))
    ∧ ((_wrap envC5 "anthropic.completion" reqC5 (.ok (.resp respC5))).1.spanStarted.map
        (fun sp => getAttr sp .usageTotalTokens)) = some (some (.int 3))
    ∧ ((_wrap envC5 "anthropic.completion" reqC5 (.ok (.resp respC5))).1.spanStarted.map
        (fun sp => getAttr sp .usageTotalTokens)) ≠ some (some (.int (8 + 3))) := by
  decide

/-- Claim C6, counterexample: a suppressed call in which the wrapped
callable raises — the exception propagates, but no exception-count data
point is recorded at all, refuting "exactly one ... for every call in which
the wrapped callable raises". -/
theorem C6_suppressed_no_exception_point :
    (_wrap envC6s "anthropic.completion" reqC6 (.exn apiError)).2 = .raised apiError
    ∧ (exceptionPoints (_wrap envC6s "anthropic.completion" reqC6 (.exn apiError)).1.points).length = 0
    ∧ (exceptionPoints (_wrap envC6s "anthropic.completion" reqC6 (.exn apiError)).1.points).length ≠ 1 := by
  decide

/-- Claim C8, counterexample: an asynchronous instrumented call with metrics
enabled records no duration data point at all (`_awrap` takes no meter and
records no metrics), refuting "exactly one duration data point ...
(synchronous or asynchronous)". -/
theorem C8_async_no_duration :
    is_metrics_enabled envC8.metricsEnvVar = true
    ∧ (_awrap envC8 "anthropic.completion" reqC8 (.ok (.resp respC8))).1.points = []
    ∧ (durationValues (_awrap envC8 "anthropic.completion" reqC8 (.ok (.resp respC8))).1.points).length ≠ 1 := by
  decide

/-- Duration values distribute over appending point lists. -/
theorem durationValues_append (l1 l2 : List MetricPoint) :
    durationValues (l1 ++ l2) = durationValues l1 ++ durationValues l2 := by
  simp [durationValues, List.filterMap_append]

/-- Exception points distribute over appending point lists. -/
theorem exceptionPoints_append (l1 l2 : List MetricPoint) :
    exceptionPoints (l1 ++ l2) = exceptionPoints l1 ++ exceptionPoints l2 := by
  simp [exceptionPoints, List.filter_append]

/-- Claim C4, amended: both sources are written — the usage-derived values
first, then the token-counting-derived values on top — so whenever the
counting capability's prompt and completion counts are truthy (nonzero),
the final token-usage attributes equal the counting capability's values,
even though the response carries a usage sub-structure; the usage source
persists only when the counting write is skipped (falsy count) or token
extraction raises. -/
theorem C4_amended (env : Env) (n : String) (req : Request) (r : Response)
    (u : Usage) (p c : String)
    (h1 : env.suppressed = false) (h2 : is_metrics_enabled env.metricsEnvVar = true)
    (h3 : env.isRecording = true) (_hu : r.usage = some u)
    (hp : req.prompt = some p) (hpne : p ≠ "")
    (hc : r.completion = some c) (hcne : c ≠ "")
    (hP : 0 < env.countTokens p) (hC : 0 < env.countTokens c) :
    ((_wrap env n req (.ok (.resp r))).1.spanStarted.map
        (fun sp => getAttr sp .usagePromptTokens))
      = some (some (.int (env.countTokens p)))
    ∧ ((_wrap env n req (.ok (.resp r))).1.spanStarted.map
        (fun sp => getAttr sp .usageCompletionTokens))
      = some (some (.int (env.countTokens c)))
    ∧ ((_wrap env n req (.ok (.resp r))).1.spanStarted.map
        (fun sp => getAttr sp .usageTotalTokens))
      = some (some (.int (env.countTokens p + env.countTokens c))) := by
  have hcp : computedPromptTokens env req = .ok (env.countTokens p) := by
    simp [computedPromptTokens, truthyStr, hp, hpne]
  have hcc : computedCompletionTokens env r = env.countTokens c := by
    simp [computedCompletionTokens, truthyStr, hc, hcne]
  have hattrs := set_token_usage_getAttr env
    (set_response_attributes env (spanWithInput env n req) r) req r
    (get_shared_metric_attributes (some (.resp r)) none) true true
    (env.countTokens p) hcp (by omega) (by rw [hcc]; omega) (by rw [hcc]; omega)
  rw [hcc] at hattrs
  simp only [_wrap, h1, h2, h3, Bool.false_eq_true, Bool.true_eq_false, if_false,
    if_true, Option.map_some, getAttr_update_status, getAttr_update_endCount]
  exact ⟨congrArg some hattrs.1, congrArg some hattrs.2.1, congrArg some hattrs.2.2⟩

/-- Claim C5, amended: for a non-streaming successful call in which the
computed prompt and completion token counts are both positive (so all three
final writes are truthy and land), the recorded `llm.usage.total_tokens`
equals the sum of the recorded prompt and completion token attributes; a
falsy computed count can instead leave a stale usage-derived attribute in
place and break the equation. -/
theorem C5_amended (env : Env) (n : String) (req : Request) (r : Response)
    (P : Int)
    (h1 : env.suppressed = false) (h2 : is_metrics_enabled env.metricsEnvVar = true)
    (h3 : env.isRecording = true)
    (hcp : computedPromptTokens env req = .ok P) (hP : 0 < P)
    (hC : 0 < computedCompletionTokens env r) :
    ((_wrap env n req (.ok (.resp r))).1.spanStarted.map
        (fun sp => getAttr sp .usagePromptTokens))
      = some (some (.int P))
    ∧ ((_wrap env n req (.ok (.resp r))).1.spanStarted.map
        (fun sp => getAttr sp .usageCompletionTokens))
      = some (some (.int (computedCompletionTokens env r)))
    ∧ ((_wrap env n req (.ok (.resp r))).1.spanStarted.map
        (fun sp => getAttr sp .usageTotalTokens))
      = some (some (.int (P + computedCompletionTokens env r))) := by
  have hattrs := set_token_usage_getAttr env
    (set_response_attributes env (spanWithInput env n req) r) req r
    (get_shared_metric_attributes (some (.resp r)) none) true true
    P hcp (by omega) (by omega) (by omega)
  simp only [_wrap, h1, h2, h3, Bool.false_eq_true, Bool.true_eq_false, if_false,
    if_true, Option.map_some, getAttr_update_status, getAttr_update_endCount]
  exact ⟨congrArg some hattrs.1, congrArg some hattrs.2.1, congrArg some hattrs.2.2⟩

/-- Claim C6, amended: for every non-suppressed, metrics-enabled call of the
synchronous wrapper in which the wrapped callable raises, the original
exception propagates unchanged, exactly one exception-count data point is
recorded — with value 1 and `error.type` equal to the exception's class
name — and no `llm.completions.*` attribute is set on the span.  (In a
suppressed call no data point is recorded at all, and the asynchronous
wrapper records no metrics.) -/
theorem C6_amended (env : Env) (n : String) (req : Request) (e : Exn)
    (h1 : env.suppressed = false) (h2 : is_metrics_enabled env.metricsEnvVar = true) :
    (_wrap env n req (.exn e)).2 = .raised e
    ∧ exceptionPoints (_wrap env n req (.exn e)).1.points
        = [{ instrument := .exceptions, value := 1,
             attrs := [(.errorType, some e.className)] }]
    ∧ ∀ sp, (_wrap env n req (.exn e)).1.spanStarted = some sp →
        ∀ i, getAttr sp (.completionContent i) = none
          ∧ getAttr sp (.completionFinishReason i) = none := by
  refine ⟨?_, ?_, ?_⟩
  · simp [_wrap, h1, h2]
  · simp only [_wrap, h1, h2, Bool.false_eq_true, Bool.true_eq_false, if_false]
    rw [exceptionPoints_append, exceptionPoints_durationPointsAt]
    simp [exceptionPoints, get_shared_metric_attributes]
  · simp only [_wrap, h1, h2, Bool.false_eq_true, Bool.true_eq_false, if_false,
      Option.some.injEq]
    intro sp hsp i
    rw [← hsp]
    exact ⟨spanWithInput_no_completionContent env n req i,
      spanWithInput_no_completionFinishReason env n req i⟩

/-- Claim C8, amended: for every non-suppressed, metrics-enabled call of the
synchronous wrapper whose end clock reading is truthy, exactly one duration
data point is recorded — whether the wrapped call returns or raises — with
value equal to the difference of the clock readings taken just before and
just after the call; the asynchronous wrapper records no data points at
all. -/
theorem C8_amended (env : Env) (n : String) (req : Request)
    (call : Outcome CallResult)
    (h1 : env.suppressed = false) (h2 : is_metrics_enabled env.metricsEnvVar = true)
    (h3 : env.timeline 1 ≠ 0) :
    durationValues (_wrap env n req call).1.points
      = [env.timeline 1 - env.timeline 0]
    ∧ (_awrap env n req call).1.points = [] := by
  constructor
  · cases call with
    | exn e =>
        simp only [_wrap, h1, h2, Bool.false_eq_true, Bool.true_eq_false, if_false]
        rw [durationValues_append, durationValues_durationPointsAt env _ h3]
        simp [durationValues]
    | ok v =>
        cases v with
        | stream items =>
            simp only [_wrap, h1, h2, Bool.false_eq_true, Bool.true_eq_false, if_false]
            rw [durationValues_durationPointsAt env _ h3]
        | noneRes =>
            simp only [_wrap, h1, h2, Bool.false_eq_true, Bool.true_eq_false, if_false]
            rw [durationValues_durationPointsAt env _ h3]
        | resp r =>
            simp only [_wrap, h1, h2, Bool.false_eq_true, Bool.true_eq_false, if_false]
            rw [durationValues_append, durationValues_durationPointsAt env _ h3]
            cases hrec : env.isRecording with
            | false => simp [hrec, durationValues]
            | true =>
                simp only [hrec, if_true]
                rw [durationValues_set_token_usage]
                simp
  · cases call with
    | exn e => simp [_awrap, h1]
    | ok v => cases v <;> simp [_awrap, h1]

/-- Claim C3, amended: in every non-suppressed, metrics-enabled run of the
sync wrapper and every non-suppressed run of the async wrapper, the span
that was started is ended exactly once when the wrapped call succeeds —
with a normal response, a falsy response, or a stream (whose adapter ends it
on exhaustion) — but is left open (ended zero times) when the wrapped call
raises. -/
theorem C3_amended (env : Env) (n : String) (req : Request) (r : Response)
    (items : List StreamItem) (e : Exn)
    (h1 : env.suppressed = false) (h2 : is_metrics_enabled env.metricsEnvVar = true) :
    ((_wrap env n req (.ok (.resp r))).1.spanStarted.map (fun sp => sp.endCount)) = some 1
    ∧ ((_wrap env n req (.ok .noneRes)).1.spanStarted.map (fun sp => sp.endCount)) = some 1
    ∧ ((_wrap env n req (.ok (.stream items))).1.spanStarted.map (fun sp => sp.endCount)) = some 1
    ∧ ((_wrap env n req (.exn e)).1.spanStarted.map (fun sp => sp.endCount)) = some 0
    ∧ ((_awrap env n req (.ok (.resp r))).1.spanStarted.map (fun sp => sp.endCount)) = some 1
    ∧ ((_awrap env n req (.ok .noneRes)).1.spanStarted.map (fun sp => sp.endCount)) = some 1
    ∧ ((_awrap env n req (.ok (.stream items))).1.spanStarted.map (fun sp => sp.endCount)) = some 1
    ∧ ((_awrap env n req (.exn e)).1.spanStarted.map (fun sp => sp.endCount)) = some 0 := by
  refine ⟨?_, ?_, ?_, ?_, ?_, ?_, ?_, ?_⟩ <;>
    simp only [_wrap, _awrap, h1, h2, Bool.false_eq_true, if_false, Bool.true_eq_false,
      Option.map_some, Option.some.injEq, build_from_streaming_response_endCount,
      spanWithInput_endCount] <;>
    first
    | rfl
    | (cases hrec : env.isRecording <;>
        simp [hrec, set_token_usage_endCount, set_token_usage_a_endCount,
          set_response_attributes_endCount, spanWithInput_endCount,
          build_from_streaming_response_endCount,
          abuild_from_streaming_response_endCount])

/-- Claim C7: with the ambient suppression flag set, each wrapper starts no
span, creates no metric instrument, records no data point, and returns
exactly what the wrapped callable returns — the value or the propagated
exception for the synchronous wrappers, and for the asynchronous wrapper
the coroutine object that calling the wrapped callable produces (it is
returned unawaited). -/
theorem C7_suppression_passthrough (env : Env) (n : String) (req : Request)
    (call : Outcome CallResult) (inst : LC.ChatInstance)
    (msgs : List LC.ChatMessage) (lcall : Outcome LC.LLMResult)
    (h : env.suppressed = true) :
    _wrap env n req call
      = ({ spanStarted := none, instruments := [], points := [], invocations := 1 },
         match call with
         | .ok v => .ok v
         | .exn e => .raised e)
    ∧ _awrap env n req call
      = ({ spanStarted := none, instruments := [], points := [], invocations := 1 },
         .coro call)
    ∧ LC.chat_wrapper env inst msgs lcall
      = ({ spanStarted := none, spanAtInvocation := none, invocations := 1 },
         match lcall with
         | .ok v => .ok v
         | .exn e => .raised e) := by
  refine ⟨?_, ?_, ?_⟩ <;> simp [_wrap, _awrap, LC.chat_wrapper, h]

/-- Claim C9: when the response has no (truthy) free-text completion and a
non-empty content list, the computed completion token count is the counting
capability applied to the first content item's text alone — content items
at index 1 and beyond contribute nothing. -/
theorem C9_first_content_item_only (env : Env) (r : Response)
    (c0 : ContentBlock) (rest : List ContentBlock)
    (h1 : truthyStr r.completion = false) (h2 : r.content = some (c0 :: rest)) :
    computedCompletionTokens env r = env.countTokens c0.text := by
  simp [computedCompletionTokens, h1, h2]

end OTel

namespace LC

open OTel (getAttr spanSetAttr AttrKey AttrVal)

/-- A raw write makes the value current for its key. -/
theorem getAttr_spanSetAttr_self (sp : OTel.Span) (k : AttrKey) (v : AttrVal) :
    getAttr (spanSetAttr sp k v) k = some v := by
  simp [getAttr, spanSetAttr, List.find?]

/-- A raw write to a different key leaves a lookup unchanged. -/
theorem getAttr_spanSetAttr_ne (sp : OTel.Span) (k' k : AttrKey) (v : AttrVal)
    (h : k' ≠ k) :
    getAttr (spanSetAttr sp k' v) k = getAttr sp k := by
  simp [getAttr, spanSetAttr, List.find?, h]

/-- The chat prompt loop only writes `llm.prompts.<i>.user` keys. -/
theorem getAttr_writeChatPrompts (k : AttrKey)
    (hk : ∀ j, k ≠ AttrKey.promptUser j) (ms : List ChatMessage) :
    ∀ (sp : OTel.Span) (i : Nat),
      getAttr (writeChatPrompts sp i ms) k = getAttr sp k := by
  induction ms with
  | nil => intro sp i; rfl
  | cons m ms ih =>
      intro sp i
      rw [writeChatPrompts, ih, getAttr_spanSetAttr_ne _ _ _ _ (Ne.symm (hk i))]

/-- The generation loop only writes `llm.completions.<i>.content` keys
(also on its partial-failure prefix). -/
theorem getAttr_writeGenerations (k : AttrKey)
    (hk : ∀ j, k ≠ AttrKey.completionContent j) (gs : List (List ChatGeneration)) :
    ∀ (sp : OTel.Span) (i : Nat),
      getAttr (writeGenerations sp i gs).1 k = getAttr sp k := by
  induction gs with
  | nil => intro sp i; rfl
  | cons g gs ih =>
      intro sp i
      cases g with
      | nil => rfl
      | cons g0 grest =>
          rw [writeGenerations, ih, getAttr_spanSetAttr_ne _ _ _ _ (Ne.symm (hk i))]

/-- When the instance resolves a request model, `_handle_request` does not
raise. -/
theorem handle_request_snd (s : Bool) (sp : OTel.Span) (msgs : List ChatMessage)
    (inst : ChatInstance) (m : String) (hm : chatRequestModel inst = some m) :
    (handle_request s sp msgs inst).2 = none := by
  simp only [handle_request, hm]
  split <;> rfl

/-- After `_handle_request`, `llm.response.model` equals the request's
model. -/
theorem handle_request_responseModel (s : Bool) (sp : OTel.Span)
    (msgs : List ChatMessage) (inst : ChatInstance) (m : String)
    (hm : chatRequestModel inst = some m) :
    getAttr (handle_request s sp msgs inst).1 .responseModel
      = some (.str m) := by
  simp only [handle_request, hm]
  split
  · rw [getAttr_writeChatPrompts AttrKey.responseModel (fun j => by simp),
      getAttr_spanSetAttr_self]
  · rw [getAttr_spanSetAttr_self]

/-- `_handle_response` never touches `llm.response.model`. -/
theorem handle_response_responseModel (s : Bool) (sp : OTel.Span)
    (res : LLMResult) :
    getAttr (handle_response s sp res).1 .responseModel
      = getAttr sp .responseModel := by
  simp only [handle_response]
  split
  · rw [getAttr_writeGenerations AttrKey.responseModel (fun j => by simp)]
  · rfl

/-- Claim C10: in every non-suppressed chat-wrapper run whose instance
resolves a request model (it has a `model` or a `model_name` attribute),
`llm.response.model` already equals the request's model on the span
snapshot taken at the moment the wrapped call is invoked, and still equals
it on the final span whatever the wrapped call returns or raises — it is
never taken from the response. -/
theorem C10_response_model_from_request (env : OTel.Env) (inst : ChatInstance)
    (msgs : List ChatMessage) (call : OTel.Outcome LLMResult) (m : String)
    (h1 : env.suppressed = false) (hm : chatRequestModel inst = some m) :
    ((chat_wrapper env inst msgs call).1.spanAtInvocation.map
        (fun sp => getAttr sp .responseModel)) = some (some (.str m))
    ∧ ((chat_wrapper env inst msgs call).1.spanStarted.map
        (fun sp => getAttr sp .responseModel)) = some (some (.str m)) := by
  simp only [chat_wrapper, h1, Bool.false_eq_true, if_false]
  rw [handle_request_snd env.sendPrompts _ msgs inst m hm]
  cases call with
  | exn e =>
      exact ⟨congrArg some (handle_request_responseModel _ _ _ _ _ hm),
        congrArg some (handle_request_responseModel _ _ _ _ _ hm)⟩
  | ok v =>
      exact ⟨congrArg some (handle_request_responseModel _ _ _ _ _ hm),
        congrArg some ((handle_response_responseModel _ _ _).trans
          (handle_request_responseModel _ _ _ _ _ hm))⟩

end LC

namespace OTel

/-- Witness: the C3 amended theorem at a concrete input. -/
theorem C3_amended_witness :
    envC3.suppressed = false
    ∧ is_metrics_enabled envC3.metricsEnvVar = true
    ∧ ((_wrap envC3 "anthropic.completion" reqC3 (.ok (.resp respC3))).1.spanStarted.map
        (fun sp => sp.endCount)) = some 1
    ∧ ((_wrap envC3 "anthropic.completion" reqC3 (.ok .noneRes)).1.spanStarted.map
        (fun sp => sp.endCount)) = some 1
    ∧ ((_wrap envC3 "anthropic.completion" reqC3 (.ok (.stream streamC3))).1.spanStarted.map
        (fun sp => sp.endCount)) = some 1
    ∧ ((_wrap envC3 "anthropic.completion" reqC3 (.exn apiError)).1.spanStarted.map
        (fun sp => sp.endCount)) = some 0
    ∧ ((_awrap envC3 "anthropic.completion" reqC3 (.ok (.resp respC3))).1.spanStarted.map
        (fun sp => sp.endCount)) = some 1
    ∧ ((_awrap envC3 "anthropic.completion" reqC3 (.ok .noneRes)).1.spanStarted.map
        (fun sp => sp.endCount)) = some 1
    ∧ ((_awrap envC3 "anthropic.completion" reqC3 (.ok (.stream streamC3))).1.spanStarted.map
        (fun sp => sp.endCount)) = some 1
    ∧ ((_awrap envC3 "anthropic.completion" reqC3 (.exn apiError)).1.spanStarted.map
        (fun sp => sp.endCount)) = some 0 :=
  ⟨by decide, by decide,
   C3_amended envC3 "anthropic.completion" reqC3 respC3 streamC3 apiError
     (by decide) (by decide)⟩

/-- Witness: the C4 amended theorem at a concrete input. -/
theorem C4_amended_witness :
    envC4.suppressed = false
    ∧ is_metrics_enabled envC4.metricsEnvVar = true
    ∧ envC4.isRecording = true
    ∧ respC4.usage = some { input_tokens := 8, output_tokens := 9 }
    ∧ reqC4.prompt = some "xy"
    ∧ "xy" ≠ ""
    ∧ respC4.completion = some "abc"
    ∧ "abc" ≠ ""
    ∧ 0 < envC4.countTokens "xy"
    ∧ 0 < envC4.countTokens "abc"
    ∧ (((_wrap envC4 "anthropic.completion" reqC4 (.ok (.resp respC4))).1.spanStarted.map
          (fun sp => getAttr sp .usagePromptTokens))
        = some (some (.int (envC4.countTokens "xy")))
       ∧ ((_wrap envC4 "anthropic.completion" reqC4 (.ok (.resp respC4))).1.spanStarted.map
          (fun sp => getAttr sp .usageCompletionTokens))
        = some (some (.int (envC4.countTokens "abc")))
       ∧ ((_wrap envC4 "anthropic.completion" reqC4 (.ok (.resp respC4))).1.spanStarted.map
          (fun sp => getAttr sp .usageTotalTokens))
        = some (some (.int (envC4.countTokens "xy" + envC4.countTokens "abc")))) :=
  ⟨by decide, by decide, by decide, by decide, by decide, by decide, by decide,
   by decide, by decide, by decide,
   C4_amended envC4 "anthropic.completion" reqC4 respC4
     { input_tokens := 8, output_tokens := 9 } "xy" "abc"
     (by decide) (by decide) (by decide) (by decide) (by decide) (by decide)
     (by decide) (by decide) (by decide) (by decide)⟩

/-- Witness: the C5 amended theorem at a concrete input. -/
theorem C5_amended_witness :
    envC5.suppressed = false
    ∧ is_metrics_enabled envC5.metricsEnvVar = true
    ∧ envC5.isRecording = true
    ∧ computedPromptTokens envC5 reqC5w = .ok 2
    ∧ (0 : Int) < 2
    ∧ 0 < computedCompletionTokens envC5 respC5
    ∧ (((_wrap envC5 "anthropic.completion" reqC5w (.ok (.resp respC5))).1.spanStarted.map
          (fun sp => getAttr sp .usagePromptTokens))
        = some (some (.int 2))
       ∧ ((_wrap envC5 "anthropic.completion" reqC5w (.ok (.resp respC5))).1.spanStarted.map
          (fun sp => getAttr sp .usageCompletionTokens))
        = some (some (.int (computedCompletionTokens envC5 respC5)))
       ∧ ((_wrap envC5 "anthropic.completion" reqC5w (.ok (.resp respC5))).1.spanStarted.map
          (fun sp => getAttr sp .usageTotalTokens))
        = some (some (.int (2 + computedCompletionTokens envC5 respC5)))) :=
  ⟨by decide, by decide, by decide, rfl, by decide, by decide,
   C5_amended envC5 "anthropic.completion" reqC5w respC5 2
     (by decide) (by decide) (by decide) rfl (by decide) (by decide)⟩

/-- Witness: the C6 amended theorem at a concrete input. -/
theorem C6_amended_witness :
    envC6n.suppressed = false
    ∧ is_metrics_enabled envC6n.metricsEnvVar = true
    ∧ ((_wrap envC6n "anthropic.completion" reqC6 (.exn apiError)).2 = .raised apiError
       ∧ exceptionPoints (_wrap envC6n "anthropic.completion" reqC6 (.exn apiError)).1.points
           = [{ instrument := .exceptions, value := 1,
                attrs := [(.errorType, some apiError.className)] }]
       ∧ ∀ sp, (_wrap envC6n "anthropic.completion" reqC6 (.exn apiError)).1.spanStarted = some sp →
           ∀ i, getAttr sp (.completionContent i) = none
             ∧ getAttr sp (.completionFinishReason i) = none) :=
  ⟨by decide, by decide,
   C6_amended envC6n "anthropic.completion" reqC6 apiError (by decide) (by decide)⟩

/-- Witness: the C7 suppression theorem at a concrete input. -/
theorem C7_suppression_witness :
    envC7.suppressed = true
    ∧ (_wrap envC7 "anthropic.completion" {} (.ok .noneRes)
        = ({ spanStarted := none, instruments := [], points := [], invocations := 1 },
           .ok .noneRes)
       ∧ _awrap envC7 "anthropic.completion" {} (.ok .noneRes)
        = ({ spanStarted := none, instruments := [], points := [], invocations := 1 },
           .coro (.ok .noneRes))
       ∧ LC.chat_wrapper envC7 { className := "ChatOpenAI" } [] (.ok { generations := [] })
        = ({ spanStarted := none, spanAtInvocation := none, invocations := 1 },
           .ok { generations := [] })) :=
  ⟨by decide,
   C7_suppression_passthrough envC7 "anthropic.completion" {} (.ok .noneRes)
     { className := "ChatOpenAI" } [] (.ok { generations := [] }) (by decide)⟩

/-- Witness: the C8 amended theorem at a concrete input. -/
theorem C8_amended_witness :
    envC8.suppressed = false
    ∧ is_metrics_enabled envC8.metricsEnvVar = true
    ∧ envC8.timeline 1 ≠ 0
    ∧ (durationValues (_wrap envC8 "anthropic.completion" reqC8 (.ok (.resp respC8))).1.points
        = [envC8.timeline 1 - envC8.timeline 0]
       ∧ (_awrap envC8 "anthropic.completion" reqC8 (.ok (.resp respC8))).1.points = []) :=
  ⟨by decide, by decide, by decide,
   C8_amended envC8 "anthropic.completion" reqC8 (.ok (.resp respC8))
     (by decide) (by decide) (by decide)⟩

/-- Witness: the C9 theorem at a concrete input. -/
theorem C9_first_content_witness :
    truthyStr respC9.completion = false
    ∧ respC9.content = some ({ text := "abcd" } :: [{ text := "zz" }])
    ∧ computedCompletionTokens envC9 respC9 = envC9.countTokens "abcd" :=
  ⟨by decide, by decide,
   C9_first_content_item_only envC9 respC9 { text := "abcd" } [{ text := "zz" }]
     (by decide) (by decide)⟩

end OTel

namespace LC

open OTel (getAttr AttrKey AttrVal)

/-- Witness: the C10 theorem at a concrete input. -/
theorem C10_response_model_witness :
    envC10.suppressed = false
    ∧ chatRequestModel instC10 = some "claude-2"
    ∧ (((chat_wrapper envC10 instC10 [] (.ok resC10)).1.spanAtInvocation.map
         (fun sp => getAttr sp .responseModel)) = some (some (.str "claude-2"))
       ∧ ((chat_wrapper envC10 instC10 [] (.ok resC10)).1.spanStarted.map
         (fun sp => getAttr sp .responseModel)) = some (some (.str "claude-2"))) :=
  ⟨by decide, by decide,
   C10_response_model_from_request envC10 instC10 [] (.ok resC10) "claude-2"
     (by decide) (by decide)⟩

end LC
